import Mathlib

/-
Verification of the bullmq queue core (src/src/classes/scripts.ts,
src/src/utils.ts and the Queue class) against its natural-language
specification. Each definition is a shallow embedding of the corresponding
TypeScript function; machine numbers are modelled as Int/Nat (ids and
timestamps are exact integers well below 2^53, where JS doubles are exact),
JS `undefined` as `Option.none`, thrown values as the error side of `Except`.
-/

/-- Composite delayed score computed by `Scripts.changeDelayArgs`
(scripts.ts lines 343-367): `timestamp = Math.max(0, timestamp); if
(timestamp > 0) timestamp = timestamp * 0x1000 + (+jobId & 0xfff)`.  The
job id is modelled as the natural number `+jobId` evaluates to; `& 0xfff`
keeps its low 12 bits. -/
def changeDelayScore (jobId : Nat) (timestamp : Int) : Int :=
  let t := max 0 timestamp
  if 0 < t then t * 4096 + ((jobId &&& 4095 : Nat) : Int) else t

/-- Composite delayed score computed by `Scripts.moveToDelayedArgs`
(scripts.ts lines 370-394): identical to `changeDelayArgs` except that the
incoming timestamp is defaulted with `?? 0` before `Math.max`. -/
def moveToDelayedScore (jobId : Nat) (timestamp : Option Int) : Int :=
  let t := max 0 (timestamp.getD 0)
  if 0 < t then t * 4096 + ((jobId &&& 4095 : Nat) : Int) else t

/-- Composite delayed score computed by `Scripts.moveToWaitingChildrenArgs`
(scripts.ts lines 396-422): `Math.max(0, opts.timestamp ?? 0)`, then the
same 12-bit packing when positive. -/
def moveToWaitingChildrenScore (jobId : Nat) (optsTimestamp : Option Int) : Int :=
  let t := max 0 (optsTimestamp.getD 0)
  if 0 < t then t * 4096 + ((jobId &&& 4095 : Nat) : Int) else t

/-- The spec's stated formula for the composite score of a delayed entry:
`max(0,timestamp) * 4096 + (numericId & 0xFFF)` (spec sections 3 and 4.3).
Written from the spec's words, to be compared with the functions embedded
from the source. -/
def specCompositeScore (jobId : Nat) (timestamp : Int) : Int :=
  max 0 timestamp * 4096 + ((jobId &&& 4095 : Nat) : Int)

/-- A JS `Error` value, identified by its message. -/
structure JsError where
  message : String
deriving DecidableEq, Repr

/-- Embedding of `Scripts.finishedErrors` (scripts.ts lines 238-256): a
`switch` over the script result code with cases -1..-4 and no default, so
any other code falls through and the function returns `undefined`
(modelled as `none`). -/
def finishedErrors (code : Int) (jobId command state : String) : Option JsError :=
  if code = -1 then some ⟨"Missing key for job " ++ jobId ++ ". " ++ command⟩
  else if code = -2 then some ⟨"Missing lock for job " ++ jobId ++ ". " ++ command⟩
  else if code = -3 then
    some ⟨"Job " ++ jobId ++ " is not in the " ++ state ++ " state. " ++ command⟩
  else if code = -4 then
    some ⟨"Job " ++ jobId ++ " has pending dependencies. " ++ command⟩
  else none

/-- Embedding of `array2obj` (utils.ts lines 33-39): pairs consecutive
entries of a flat `[field, value, field, value, ...]` array into an object,
kept here as the ordered list of bindings (on duplicate field names the JS
object keeps the later assignment; no claim depends on duplicates).  An odd
trailing field gets the out-of-bounds value `undefined`. -/
def array2obj : List String → List (String × Option String)
  | [] => []
  | [k] => [(k, none)]
  | k :: v :: rest => (k, some v) :: array2obj rest

/-- Embedding of `raw2jobData` (scripts.ts lines 693-702): a nil reply or an
empty field array decodes to `[]` (modelled `none`); otherwise the field
array is paired into an object and returned with the accompanying job id. -/
def raw2jobData (raw : Option (List String × Option String)) :
    Option (List (String × Option String) × Option String) :=
  match raw with
  | some (jobData, jid) => if jobData.length ≠ 0 then some (array2obj jobData, jid) else none
  | none => none

/-- A reply from one of the job-moving scripts: an integer code, a
`[fields, jobId]` array, or a nil reply.  The moving scripts reply with a
non-positive integer code or an array; positive integer replies do not
occur for these commands. -/
inductive ScriptReply where
  | num (n : Int)
  | arr (fields : List String) (jobId : Option String)
  | nil
deriving DecidableEq, Repr

/-- Embedding of the result handling of `Scripts.moveToFinished`
(scripts.ts lines 208-236): a negative code throws whatever
`finishedErrors(result, job.id, 'finished', 'active')` produces (possibly
`undefined`); a truthy non-numeric result is decoded with `raw2jobData`;
otherwise the call resolves with `undefined`. -/
def moveToFinishedModel (reply : ScriptReply) (jobId : String) :
    Except (Option JsError) (Option (List (String × Option String) × Option String)) :=
  match reply with
  | .num n =>
      if n < 0 then .error (finishedErrors n jobId "finished" "active")
      else .ok none
  | .arr fields jid => .ok (raw2jobData (some (fields, jid)))
  | .nil => .ok none

/-- Embedding of the result handling of `Scripts.moveToDelayed`
(scripts.ts lines 424-436): a negative code throws
`finishedErrors(result, jobId, 'moveToDelayed', 'active')`. -/
def moveToDelayedModel (result : Int) (jobId : String) : Except (Option JsError) Unit :=
  if result < 0 then .error (finishedErrors result jobId "moveToDelayed" "active")
  else .ok ()

/-- Embedding of the result handling of `Scripts.changeDelay`
(scripts.ts lines 329-341): a negative code throws
`finishedErrors(result, jobId, 'changeDelay', 'delayed')`. -/
def changeDelayModel (result : Int) (jobId : String) : Except (Option JsError) Unit :=
  if result < 0 then .error (finishedErrors result jobId "changeDelay" "delayed")
  else .ok ()

/-- C1 counterexample: the claim states the composite score equals
`max(0,timestamp) * 4096 + (numericId & 0xFFF)` including the case
`timestamp = 0`; at job id 1 and timestamp 0 the code computes 0 while the
claimed formula gives 1. -/
theorem changeDelayScore_ne_spec_at_zero :
    changeDelayScore 1 0 ≠ specCompositeScore 1 0 := by
  decide

/-- C1 (amended): the composite score computed by `changeDelayArgs`,
`moveToDelayedArgs` and `moveToWaitingChildrenArgs` equals
`max(0,timestamp) * 4096 + (numericId & 0xFFF)` whenever
`max(0,timestamp) > 0`, and equals 0 when the timestamp is at most 0 (or
absent): the 12 tiebreaker bits are only baked in for a positive
timestamp. -/
theorem delayedScore_formula (jobId : Nat) (ts : Int) :
    (changeDelayScore jobId ts =
      if 0 < max 0 ts then specCompositeScore jobId ts else 0)
  ∧ (moveToDelayedScore jobId (some ts) =
      if 0 < max 0 ts then specCompositeScore jobId ts else 0)
  ∧ moveToDelayedScore jobId none = 0
  ∧ (moveToWaitingChildrenScore jobId (some ts) =
      if 0 < max 0 ts then specCompositeScore jobId ts else 0)
  ∧ moveToWaitingChildrenScore jobId none = 0 := by
  refine ⟨?_, ?_, by rfl, ?_, by rfl⟩ <;>
    simp only [changeDelayScore, moveToDelayedScore, moveToWaitingChildrenScore,
      specCompositeScore, Option.getD_some] <;>
    split <;> omega

/-- C2: `moveToFinished` throws the matching `finishedErrors` error for each
negative code the script returns (-1 missing job key, -2 missing/invalid
lock, -3 job not in the active state, -4 pending dependencies) and does not
throw for any non-negative numeric, array or nil result. -/
theorem moveToFinished_error_codes (jid : String) (n : Int) (hn : 0 ≤ n)
    (fields : List String) (oj : Option String) :
    moveToFinishedModel (.num (-1)) jid =
      .error (some ⟨"Missing key for job " ++ jid ++ ". finished"⟩)
  ∧ moveToFinishedModel (.num (-2)) jid =
      .error (some ⟨"Missing lock for job " ++ jid ++ ". finished"⟩)
  ∧ moveToFinishedModel (.num (-3)) jid =
      .error (some ⟨"Job " ++ jid ++ " is not in the active state. finished"⟩)
  ∧ moveToFinishedModel (.num (-4)) jid =
      .error (some ⟨"Job " ++ jid ++ " has pending dependencies. finished"⟩)
  ∧ moveToFinishedModel (.num n) jid = .ok none
  ∧ moveToFinishedModel (.arr fields oj) jid = .ok (raw2jobData (some (fields, oj)))
  ∧ moveToFinishedModel .nil jid = .ok none := by
  refine ⟨?_, ?_, ?_, ?_, ?_, rfl, rfl⟩ <;>
    simp [moveToFinishedModel, finishedErrors, String.append_assoc]
  omega

/-- C2 witness: the theorem instantiated at job id "7", result 0 and an
empty array reply. -/
theorem moveToFinished_error_codes_witness :
    moveToFinishedModel (.num (-3)) "7" =
      .error (some ⟨"Job 7 is not in the active state. finished"⟩)
  ∧ moveToFinishedModel (.num 0) "7" = .ok none :=
  ⟨(moveToFinished_error_codes "7" 0 (by decide) [] none).2.2.1,
   (moveToFinished_error_codes "7" 0 (by decide) [] none).2.2.2.2.1⟩

/-- C10: for every negative code outside {-1,-2,-3,-4} the `switch` in
`finishedErrors` falls through and produces `undefined` rather than an
`Error`, so `moveToFinished`, `moveToDelayed` and `changeDelay` throw the
value `undefined` (`none`) for such codes. -/
theorem finishedErrors_unknown_code (c : Int) (h : c < 0)
    (h1 : c ≠ -1) (h2 : c ≠ -2) (h3 : c ≠ -3) (h4 : c ≠ -4)
    (jid cmd st : String) :
    finishedErrors c jid cmd st = none
  ∧ moveToFinishedModel (.num c) jid = .error none
  ∧ moveToDelayedModel c jid = .error none
  ∧ changeDelayModel c jid = .error none := by
  have he : ∀ cmd st : String, finishedErrors c jid cmd st = none := by
    intro cmd st
    simp [finishedErrors, h1, h2, h3, h4]
  exact ⟨he cmd st, by simp [moveToFinishedModel, h, he],
    by simp [moveToDelayedModel, h, he], by simp [changeDelayModel, h, he]⟩

/-- C10 witness: the theorem instantiated at code -5. -/
theorem finishedErrors_unknown_code_witness :
    finishedErrors (-5) "9" "finished" "active" = none
  ∧ moveToFinishedModel (.num (-5)) "9" = .error none :=
  ⟨(finishedErrors_unknown_code (-5) (by decide) (by decide) (by decide)
      (by decide) (by decide) "9" "finished" "active").1,
   (finishedErrors_unknown_code (-5) (by decide) (by decide) (by decide)
      (by decide) (by decide) "9" "finished" "active").2.1⟩

/-- Embedding of the eighth script argument built by
`Scripts.moveToFinishedArgs` (scripts.ts line 197):
`!fetchNext || queue.closing || opts.limiter ? 0 : 1`, with the truthiness
of `queue.closing` (a pending close) and `opts.limiter` (a configured rate
limiter) modelled as booleans. -/
def moveToFinishedFetchNextArg (fetchNext closing limiter : Bool) : Nat :=
  if !fetchNext || closing || limiter then 0 else 1

/-- C4: `moveToFinished` passes flag 1 to the script exactly when the
`fetchNext` argument is true, the queue is not closing and no rate limiter
is configured, and passes flag 0 otherwise. -/
theorem moveToFinished_fetchNext_flag :
    ∀ fetchNext closing limiter : Bool,
      moveToFinishedFetchNextArg fetchNext closing limiter =
        if fetchNext = true ∧ closing = false ∧ limiter = false then 1 else 0 := by
  decide

/-- Embedding of the return value of `Scripts.moveToActive`
(scripts.ts lines 530-568): `[delayUntil, undefined]` for a numeric reply,
else the `raw2jobData` decoding, which yields either a `(jobData, jobId)`
pair or the empty tuple. -/
inductive MoveToActiveReturn where
  | pair (delayUntil : Int)
  | jobData (fields : List (String × Option String)) (jobId : Option String)
  | empty
deriving DecidableEq, Repr

/-- Embedding of the result handling of `Scripts.moveToActive`
(scripts.ts lines 560-567): `typeof result === 'number'` returns the
`[result, void 0]` pair, anything else goes through `raw2jobData`. -/
def moveToActiveModel (reply : ScriptReply) : MoveToActiveReturn :=
  match reply with
  | .num n => .pair n
  | .arr fields jid =>
      match raw2jobData (some (fields, jid)) with
      | some (obj, j) => .jobData obj j
      | none => .empty
  | .nil =>
      match raw2jobData none with
      | some (obj, j) => .jobData obj j
      | none => .empty

/-- C5: a numeric `moveToActive` reply (a rate-limit delay) is returned as
the `(delayUntil, undefined)` pair; a non-numeric reply is decoded by
pairing the flat field array into an object alongside the job id; an empty
field array (and a nil reply) decodes to the empty result. -/
theorem moveToActive_decoding (n : Int) (k v : String) (rest fields : List String)
    (jid : Option String) (hf : fields ≠ []) :
    moveToActiveModel (.num n) = .pair n
  ∧ moveToActiveModel (.arr fields jid) = .jobData (array2obj fields) jid
  ∧ moveToActiveModel (.arr [] jid) = .empty
  ∧ moveToActiveModel .nil = .empty
  ∧ array2obj (k :: v :: rest) = (k, some v) :: array2obj rest := by
  refine ⟨rfl, ?_, rfl, rfl, rfl⟩
  have hlen : fields.length ≠ 0 := by
    simpa [List.length_eq_zero] using hf
  simp [moveToActiveModel, raw2jobData, hlen]

/-- C5 witness: the theorem instantiated at reply `["name", "x"]` with job
id "3" and delay 250. -/
theorem moveToActive_decoding_witness :
    moveToActiveModel (.num 250) = .pair 250
  ∧ moveToActiveModel (.arr ["name", "x"] (some "3")) =
      .jobData [("name", some "x")] (some "3") :=
  ⟨(moveToActive_decoding 250 "name" "x" [] ["name", "x"] (some "3")
      (by simp)).1,
   (moveToActive_decoding 250 "name" "x" [] ["name", "x"] (some "3")
      (by simp)).2.1⟩

/-- Job options consumed by `Scripts.addJob` (scripts.ts lines 58-101):
`opts.delay`, `opts.priority` (both possibly undefined) and `opts.lifo`. -/
structure AddJobOpts where
  delay : Option Int
  priority : Option Int
  lifo : Bool
deriving DecidableEq, Repr

/-- Parent options consumed by `Scripts.addJob` (scripts.ts lines 36-40,
64-68). -/
structure AddJobParentOpts where
  waitChildrenKey : Option String
  parentDependenciesKey : Option String
  parentKey : Option String
deriving DecidableEq, Repr

/-- The option-derived script arguments built by `Scripts.addJob`
(scripts.ts lines 82-96). -/
structure AddJobArgs where
  delay : Option Int
  delayTimestamp : Int
  priority : Int
  pushCmd : String
  waitChildrenKey : Option String
deriving DecidableEq, Repr

/-- Embedding of the argument construction of `Scripts.addJob`
(scripts.ts lines 82-96): `opts.delay`,
`opts.delay ? job.timestamp + opts.delay : 0` (0 is falsy),
`opts.priority || 0`, `opts.lifo ? 'RPUSH' : 'LPUSH'`, and
`parentOpts.waitChildrenKey`. -/
def addJobArgs (timestamp : Int) (opts : AddJobOpts)
    (parentOpts : AddJobParentOpts) : AddJobArgs :=
  { delay := opts.delay
    delayTimestamp :=
      match opts.delay with
      | some d => if d = 0 then 0 else timestamp + d
      | none => 0
    priority :=
      match opts.priority with
      | some p => if p = 0 then 0 else p
      | none => 0
    pushCmd := if opts.lifo then "RPUSH" else "LPUSH"
    waitChildrenKey := parentOpts.waitChildrenKey }

/-- C7: for a job added without delay and without a parent wait-children
key, `addJob` instructs the script to push with LPUSH when `opts.lifo` is
false and RPUSH when it is true, and passes `opts.priority` defaulting to
0. -/
theorem addJob_push_and_priority (ts : Int) (opts : AddJobOpts)
    (po : AddJobParentOpts) (hdelay : opts.delay = none ∨ opts.delay = some 0)
    (hpar : po.waitChildrenKey = none) :
    (opts.lifo = false → (addJobArgs ts opts po).pushCmd = "LPUSH")
  ∧ (opts.lifo = true → (addJobArgs ts opts po).pushCmd = "RPUSH")
  ∧ (addJobArgs ts opts po).priority = opts.priority.getD 0 := by
  refine ⟨fun h => by simp [addJobArgs, h], fun h => by simp [addJobArgs, h], ?_⟩
  rcases hp : opts.priority with _ | p
  · simp [addJobArgs, hp]
  · by_cases h0 : p = 0 <;> simp [addJobArgs, hp, h0]

/-- C7 witness: the theorem instantiated at a FIFO job with priority 3 and
no delay or parent key. -/
theorem addJob_push_and_priority_witness :
    (addJobArgs 5 ⟨none, some 3, false⟩ ⟨none, none, none⟩).pushCmd = "LPUSH"
  ∧ (addJobArgs 5 ⟨none, some 3, false⟩ ⟨none, none, none⟩).priority = 3 :=
  ⟨(addJob_push_and_priority 5 ⟨none, some 3, false⟩ ⟨none, none, none⟩
      (Or.inl rfl) rfl).1 rfl,
   (addJob_push_and_priority 5 ⟨none, some 3, false⟩ ⟨none, none, none⟩
      (Or.inl rfl) rfl).2.2⟩

/-- JS truthiness of a possibly-undefined string: `undefined` and the empty
string are falsy. -/
def jsTruthy : Option String → Bool
  | none => false
  | some s => s != ""

/-- Embedding of `Queue.jobIdForGroup` (part_000 lines 81-89):
`jobId = opts && opts.jobId`; `groupKeyPath = get(this, 'limiter.groupKey')`;
`groupKey = get(data, groupKeyPath)` (modelled by `resolve`, the lodash
path lookup in the job payload; an undefined path resolves to undefined);
if both path and value are defined the id becomes
`(jobId || v4()) + ':' + groupKey` where `v4()` is the fresh uuid, else the
caller-supplied id is returned unchanged. -/
def jobIdForGroup (groupKeyPath : Option String) (resolve : String → Option String)
    (optsJobId : Option String) (fresh : String) : Option String :=
  let groupKey : Option String :=
    match groupKeyPath with
    | some p => resolve p
    | none => none
  if jsTruthy groupKeyPath && groupKey.isSome then
    some ((match optsJobId with
           | some s => if s = "" then fresh else s
           | none => fresh) ++ ":" ++ groupKey.getD "")
  else optsJobId

/-- C8: when a limiter group-key path is configured and resolves to a
defined value in the payload, the job id used is the caller-supplied id, or
a fresh uuid when none was supplied, with `:<group>` appended; when the
path is unset or resolves to undefined, the caller-supplied id is used
unchanged. -/
theorem jobIdForGroup_spec (p g fresh s : String) (resolve : String → Option String)
    (optsJobId : Option String) (hp : p ≠ "") :
    (resolve p = some g → s ≠ "" →
      jobIdForGroup (some p) resolve (some s) fresh = some (s ++ ":" ++ g))
  ∧ (resolve p = some g →
      jobIdForGroup (some p) resolve none fresh = some (fresh ++ ":" ++ g))
  ∧ jobIdForGroup none resolve optsJobId fresh = optsJobId
  ∧ (resolve p = none → jobIdForGroup (some p) resolve optsJobId fresh = optsJobId) := by
  refine ⟨fun hg hs => ?_, fun hg => ?_, ?_, fun hg => ?_⟩
  · simp [jobIdForGroup, jsTruthy, hg, hp, hs]
  · simp [jobIdForGroup, jsTruthy, hg, hp]
  · simp [jobIdForGroup, jsTruthy]
  · simp [jobIdForGroup, jsTruthy, hg]

/-- C8 witness: the theorem instantiated at path "tenant" resolving to
group "acme", caller id "42" and fresh uuid "u1". -/
theorem jobIdForGroup_spec_witness :
    jobIdForGroup (some "tenant") (fun _ => some "acme") (some "42") "u1" =
      some "42:acme"
  ∧ jobIdForGroup (some "tenant") (fun _ => some "acme") none "u1" =
      some "u1:acme" :=
  ⟨(jobIdForGroup_spec "tenant" "acme" "u1" "42" (fun _ => some "acme")
      (some "42") (by decide)).1 rfl (by decide),
   (jobIdForGroup_spec "tenant" "acme" "u1" "42" (fun _ => some "acme")
      (some "42") (by decide)).2.1 rfl⟩

/-- Per-job store state touched by the moveToWaitingChildren script: the
`<id>:dependencies` set, the `<id>:lock` value, and the `active` and
`waiting-children` containers (the keys passed by
`moveToWaitingChildrenArgs`, scripts.ts lines 396-422). -/
structure WaitingChildrenState where
  dependencies : List String
  lock : Option String
  active : List String
  waitingChildren : List String
deriving DecidableEq, Repr

/-- Modelled from the spec: the moveToWaitingChildren Lua script is not
under src (only its wrapper and argument construction are).  Spec section
4.3: "If `<id>:dependencies` is empty, returns 0 (no-op, job keeps active).
Else verifies lock+token, removes id from `active`, adds to
`waiting-children`. Returns 1."  A failed lock verification yields the -2
(missing/invalid lock) code of the shared error-code table. -/
def moveToWaitingChildrenScript (s : WaitingChildrenState) (jobId token : String) :
    Int × WaitingChildrenState :=
  if s.dependencies.isEmpty then (0, s)
  else if s.lock = some token then
    (1, { dependencies := s.dependencies
          lock := s.lock
          active := s.active.filter (fun x => x ≠ jobId)
          waitingChildren := s.waitingChildren ++ [jobId] })
  else (-2, s)

/-- Embedding of the result handling of `Scripts.moveToWaitingChildren`
(scripts.ts lines 438-464): script result 0 returns `true`, 1 returns
`false`, and any other value returns
`finishedErrors(result, jobId, 'moveToWaitingChildren', 'active')`. -/
def moveToWaitingChildrenModel (s : WaitingChildrenState) (jobId token : String) :
    (Bool ⊕ Option JsError) × WaitingChildrenState :=
  let r := moveToWaitingChildrenScript s jobId token
  if r.1 = 0 then (Sum.inl true, r.2)
  else if r.1 = 1 then (Sum.inl false, r.2)
  else (Sum.inr (finishedErrors r.1 jobId "moveToWaitingChildren" "active"), r.2)

/-- C3: when the dependencies set is empty, moveToWaitingChildren is a
no-op returning the 0 (no-op) script outcome; when it is non-empty and the
lock matches the token, the job is removed from `active`, added to
`waiting-children` and the 1 (success) outcome is returned; any negative
script code makes the wrapper yield an error. -/
theorem moveToWaitingChildren_outcomes (s : WaitingChildrenState)
    (jobId token : String) :
    (s.dependencies = [] → moveToWaitingChildrenScript s jobId token = (0, s))
  ∧ (s.dependencies ≠ [] → s.lock = some token →
      (moveToWaitingChildrenScript s jobId token).1 = 1
      ∧ jobId ∉ (moveToWaitingChildrenScript s jobId token).2.active
      ∧ jobId ∈ (moveToWaitingChildrenScript s jobId token).2.waitingChildren)
  ∧ ((moveToWaitingChildrenScript s jobId token).1 < 0 →
      (moveToWaitingChildrenModel s jobId token).1 =
        Sum.inr (some ⟨"Missing lock for job " ++ jobId ++ ". moveToWaitingChildren"⟩)) := by
  refine ⟨fun hd => ?_, fun hd hl => ?_, fun hneg => ?_⟩
  · simp [moveToWaitingChildrenScript, hd]
  · refine ⟨?_, ?_, ?_⟩ <;>
      simp [moveToWaitingChildrenScript, hd, hl, List.mem_filter]
  · have hd : ¬ s.dependencies.isEmpty := by
      intro h
      simp [moveToWaitingChildrenScript, h] at hneg
    have hl : ¬ s.lock = some token := by
      intro h
      simp [moveToWaitingChildrenScript, hd, h] at hneg
    simp [moveToWaitingChildrenModel, moveToWaitingChildrenScript, hd, hl,
      finishedErrors, String.append_assoc]

/-- C3 witness: the theorem instantiated at a job with one pending child
and a matching lock token. -/
theorem moveToWaitingChildren_outcomes_witness :
    (moveToWaitingChildrenScript ⟨["c1"], some "tok", ["5"], []⟩ "5" "tok").1 = 1
  ∧ "5" ∉ (moveToWaitingChildrenScript ⟨["c1"], some "tok", ["5"], []⟩ "5" "tok").2.active
  ∧ "5" ∈ (moveToWaitingChildrenScript ⟨["c1"], some "tok", ["5"], []⟩ "5" "tok").2.waitingChildren :=
  (moveToWaitingChildren_outcomes ⟨["c1"], some "tok", ["5"], []⟩ "5" "tok").2.1
    (by simp) rfl

/-- Per-job store state touched by the reprocessJob script: whether the
`<id>` hash exists, whether `<id>:lock` is held, the expected finished set
(`completed` or `failed`) and the target ready list (the keys passed by
`Scripts.reprocessJob`, scripts.ts lines 511-528; `wait`, or `paused` while
the queue is paused, is modelled as the single field `wait`). -/
structure ReprocessState where
  jobExists : Bool
  locked : Bool
  finishedSet : List String
  wait : List String
deriving DecidableEq, Repr

/-- Modelled from the spec: the reprocessJob Lua script is not under src
(only its wrapper is).  Spec section 4.3 and the JSDoc on
`Scripts.reprocessJob` (scripts.ts lines 497-510): returns 1 on success, 0
when the job does not exist, -1 when the job is currently locked, -2 when
the job was not found in the expected set; on success the id moves from the
finished set back to the ready list with the supplied push command (RPUSH
appends to the tail, LPUSH prepends to the head). -/
def reprocessJobScript (s : ReprocessState) (jobId pushCmd : String) :
    Int × ReprocessState :=
  if s.jobExists = false then (0, s)
  else if s.locked = true then (-1, s)
  else if jobId ∈ s.finishedSet then
    (1, { jobExists := s.jobExists
          locked := s.locked
          finishedSet := s.finishedSet.filter (fun x => x ≠ jobId)
          wait := if pushCmd = "RPUSH" then s.wait ++ [jobId] else jobId :: s.wait })
  else (-2, s)

/-- Embedding of the push command built by `Scripts.reprocessJob`
(scripts.ts line 525): `(job.opts.lifo ? 'R' : 'L') + 'PUSH'`. -/
def reprocessPushCmd (lifo : Bool) : String :=
  (if lifo then "R" else "L") ++ "PUSH"

/-- C6: reprocessJob moves a job from the completed/failed set back to the
ready list using RPUSH when `lifo` is set and LPUSH otherwise, and returns
1 on success, 0 when the job does not exist, -1 when the job is locked and
-2 when the job is not in the expected set. -/
theorem reprocessJob_outcomes (s : ReprocessState) (jobId : String) (lifo : Bool) :
    reprocessPushCmd true = "RPUSH"
  ∧ reprocessPushCmd false = "LPUSH"
  ∧ (s.jobExists = false →
      reprocessJobScript s jobId (reprocessPushCmd lifo) = (0, s))
  ∧ (s.jobExists = true → s.locked = true →
      reprocessJobScript s jobId (reprocessPushCmd lifo) = (-1, s))
  ∧ (s.jobExists = true → s.locked = false → jobId ∉ s.finishedSet →
      reprocessJobScript s jobId (reprocessPushCmd lifo) = (-2, s))
  ∧ (s.jobExists = true → s.locked = false → jobId ∈ s.finishedSet →
      (reprocessJobScript s jobId (reprocessPushCmd lifo)).1 = 1
      ∧ (lifo = true →
          (reprocessJobScript s jobId (reprocessPushCmd lifo)).2.wait = s.wait ++ [jobId])
      ∧ (lifo = false →
          (reprocessJobScript s jobId (reprocessPushCmd lifo)).2.wait = jobId :: s.wait)) := by
  refine ⟨rfl, rfl, fun h => ?_, fun h hl => ?_, fun h hl hm => ?_, fun h hl hm => ?_⟩
  · simp [reprocessJobScript, h]
  · simp [reprocessJobScript, h, hl]
  · simp [reprocessJobScript, h, hl, hm]
  · refine ⟨?_, fun hlifo => ?_, fun hlifo => ?_⟩ <;>
      simp [reprocessJobScript, reprocessPushCmd, h, hl, hm] <;>
      simp [hlifo, reprocessPushCmd]

/-- C6 witness: the theorem instantiated at an unlocked existing job "8" in
the failed set, reprocessed in FIFO order. -/
theorem reprocessJob_outcomes_witness :
    (reprocessJobScript ⟨true, false, ["8"], ["2"]⟩ "8" (reprocessPushCmd false)).1 = 1
  ∧ (reprocessJobScript ⟨true, false, ["8"], ["2"]⟩ "8" (reprocessPushCmd false)).2.wait =
      "8" :: ["2"] :=
  ⟨((reprocessJob_outcomes ⟨true, false, ["8"], ["2"]⟩ "8" false).2.2.2.2.2
      rfl rfl (by simp)).1,
   ((reprocessJob_outcomes ⟨true, false, ["8"], ["2"]⟩ "8" false).2.2.2.2.2
      rfl rfl (by simp)).2.2 rfl⟩

/-- Embedding of the result handling of `Scripts.obliterate`
(scripts.ts lines 640-659): -1 throws "Cannot obliterate non-paused
queue", -2 throws "Cannot obliterate queue with active jobs"; the `switch`
has no other case, so every other result (the cursor) is returned. -/
def obliterateScriptCall (result : Int) : Except String Int :=
  if result < 0 then
    if result = -1 then Except.error "Cannot obliterate non-paused queue"
    else if result = -2 then Except.error "Cannot obliterate queue with active jobs"
    else Except.ok result
  else Except.ok result

/-- Options accepted by `Queue.obliterate` (part_000 lines 247-258), both
fields optional. -/
structure ObliterateOpts where
  force : Option Bool
  count : Option Nat
deriving DecidableEq, Repr

/-- The force flag after the merge `{ force: false, count: 1000, ...opts }`
in `Queue.obliterate` (part_000 line 252). -/
def mergedForce (opts : Option ObliterateOpts) : Bool :=
  match opts with
  | some o => o.force.getD false
  | none => false

/-- The count after the merge `{ force: false, count: 1000, ...opts }` in
`Queue.obliterate` (part_000 line 252). -/
def mergedCount (opts : Option ObliterateOpts) : Nat :=
  match opts with
  | some o => o.count.getD 1000
  | none => 1000

/-- One observable action of `Queue.obliterate`: the initial pause, or one
invocation of the obliterate script with the count and force it was passed
and the cursor it returned. -/
inductive QueueAction where
  | pauseQueue
  | runObliterate (count : Nat) (force : Bool) (cursor : Int)
deriving DecidableEq, Repr

/-- Embedding of the `do { cursor = await Scripts.obliterate(...) } while
(cursor)` loop of `Queue.obliterate` (part_000 lines 250-257), run against
the list of successive script results (`none` when the list is exhausted
while the cursor is still truthy, i.e. nonzero). -/
def obliterateLoop (count : Nat) (force : Bool) :
    List Int → Option (Except String (List QueueAction))
  | [] => none
  | r :: rest =>
    match obliterateScriptCall r with
    | Except.error e => some (Except.error e)
    | Except.ok cursor =>
      if cursor = 0 then some (Except.ok [QueueAction.runObliterate count force r])
      else (obliterateLoop count force rest).map
             (fun t => t.map (fun acts => QueueAction.runObliterate count force r :: acts))

/-- Embedding of `Queue.obliterate` (part_000 lines 247-258): pause the
queue first, then run the script loop with the merged options. -/
def queueObliterate (opts : Option ObliterateOpts) (results : List Int) :
    Option (Except String (List QueueAction)) :=
  (obliterateLoop (mergedCount opts) (mergedForce opts) results).map
    (fun t => t.map (fun acts => QueueAction.pauseQueue :: acts))

/-- Trace of the obliterate loop on a run of positive cursors followed by
the terminating cursor 0: one script call per listed result, stopping at
the first 0. -/
theorem obliterateLoop_run (count : Nat) (force : Bool) (rs rest : List Int)
    (h : ∀ r ∈ rs, 0 < r) :
    obliterateLoop count force (rs ++ 0 :: rest) =
      some (Except.ok
        (rs.map (fun r => QueueAction.runObliterate count force r) ++
          [QueueAction.runObliterate count force 0])) := by
  induction rs with
  | nil => simp [obliterateLoop, obliterateScriptCall]
  | cons r rs ih =>
    have hr : 0 < r := h r (List.mem_cons_self r rs)
    have hrs : ∀ x ∈ rs, 0 < x := fun x hx => h x (List.mem_cons_of_mem r hx)
    have hcall : obliterateScriptCall r = Except.ok r := by
      simp [obliterateScriptCall]
      omega
    have hr0 : r ≠ 0 := by omega
    simp [obliterateLoop, hcall, hr0, ih hrs, Except.map]

/-- C9: the obliterate wrapper throws "Cannot obliterate non-paused queue"
on script result -1 and "Cannot obliterate queue with active jobs" on -2;
`Queue.obliterate` first pauses the queue and then repeatedly invokes the
script, with count defaulting to 1000 and force defaulting to false, until
the returned cursor is 0. -/
theorem queue_obliterate_behaviour (opts : Option ObliterateOpts)
    (rs rest : List Int) (h : ∀ r ∈ rs, 0 < r) :
    obliterateScriptCall (-1) = Except.error "Cannot obliterate non-paused queue"
  ∧ obliterateScriptCall (-2) = Except.error "Cannot obliterate queue with active jobs"
  ∧ queueObliterate opts (rs ++ 0 :: rest) =
      some (Except.ok
        (QueueAction.pauseQueue ::
          (rs.map (fun r => QueueAction.runObliterate (mergedCount opts) (mergedForce opts) r) ++
            [QueueAction.runObliterate (mergedCount opts) (mergedForce opts) 0])))
  ∧ mergedCount none = 1000
  ∧ mergedForce none = false
  ∧ (∀ f : Bool, ∀ c : Nat,
      mergedCount (some ⟨some f, some c⟩) = c ∧ mergedForce (some ⟨some f, some c⟩) = f) := by
  refine ⟨rfl, rfl, ?_, rfl, rfl, fun f c => ⟨rfl, rfl⟩⟩
  simp [queueObliterate, obliterateLoop_run (mergedCount opts) (mergedForce opts) rs rest h,
    Except.map]

/-- C9 witness: the theorem instantiated with no explicit options and the
cursor sequence 3, 0. -/
theorem queue_obliterate_behaviour_witness :
    queueObliterate none [3, 0] =
      some (Except.ok
        [QueueAction.pauseQueue, QueueAction.runObliterate 1000 false 3,
          QueueAction.runObliterate 1000 false 0]) := by
  have h := (queue_obliterate_behaviour none [3] []
    (by intro r hr; simp at hr; omega)).2.2.1
  simpa [mergedCount, mergedForce] using h
